import Mathlib

/-!
Shallow embedding of the fiducial odometry publisher
(src/src/tfr_sensor/src/fiducial_odom_publisher.cpp) of NasaRmc2018.

The node's per-event handler FiducialOdom::process_odometry is embedded as a
pure function from the stored previous pose (the member last_pose) and the
cycle's external inputs (detection result, transform lookup outcome, clock) to
the cycle's observable outcome: the new stored pose, the sequence of values
written to the last_pose member, whether a transform lookup was performed, the
number of warnings logged, the backoff sleep, the broadcast transform and the
published odometry record.

The tf2 library operations the handler calls (Matrix3x3, Quaternion, Transform
of geometry2, and doTransform of tf2_geometry_msgs) are embedded from the tf2
sources the node links against; scalars are real numbers standing for the
C++ doubles, with Lean's division-by-zero convention (x / 0 = 0) where the
doubles would produce inf/nan.
-/

open scoped Classical

namespace Tf2

/-- tf2 Vector3: three scalar components. -/
@[ext] structure Vector3 where
  x : ℝ
  y : ℝ
  z : ℝ

/-- Componentwise sum (tf2 Vector3 operator+). -/
def Vector3.add (a b : Vector3) : Vector3 := ⟨a.x + b.x, a.y + b.y, a.z + b.z⟩

/-- Componentwise difference (tf2 Vector3 operator-). -/
def Vector3.sub (a b : Vector3) : Vector3 := ⟨a.x - b.x, a.y - b.y, a.z - b.z⟩

/-- Componentwise negation (tf2 Vector3 unary operator-). -/
def Vector3.neg (v : Vector3) : Vector3 := ⟨-v.x, -v.y, -v.z⟩

/-- Division of a vector by a scalar (tf2 Vector3 operator/ with a tf2Scalar). -/
noncomputable def Vector3.divScalar (v : Vector3) (s : ℝ) : Vector3 := ⟨v.x / s, v.y / s, v.z / s⟩

/-- Scaling of a vector by a scalar (tf2 Vector3 operator* with a tf2Scalar). -/
def Vector3.smul (c : ℝ) (v : Vector3) : Vector3 := ⟨c * v.x, c * v.y, c * v.z⟩

/-- tf2 Quaternion: vector part x, y, z and scalar part w. -/
@[ext] structure Quaternion where
  x : ℝ
  y : ℝ
  z : ℝ
  w : ℝ

/-- tf2 Quaternion::length2: the squared norm. -/
def Quaternion.length2 (q : Quaternion) : ℝ :=
  q.x * q.x + q.y * q.y + q.z * q.z + q.w * q.w

/-- tf2 Quaternion operator*(Quaternion, Quaternion): Hamilton product. -/
def Quaternion.mul (a b : Quaternion) : Quaternion :=
  ⟨a.w * b.x + a.x * b.w + a.y * b.z - a.z * b.y,
   a.w * b.y + a.y * b.w + a.z * b.x - a.x * b.z,
   a.w * b.z + a.z * b.w + a.x * b.y - a.y * b.x,
   a.w * b.w - a.x * b.x - a.y * b.y - a.z * b.z⟩

/-- tf2 Quaternion::inverse: the conjugate (negated vector part). -/
def Quaternion.inverse (q : Quaternion) : Quaternion := ⟨-q.x, -q.y, -q.z, q.w⟩

/-- tf2 Quaternion operator*(Quaternion, Vector3): the product with the pure
quaternion of a vector. -/
def Quaternion.mulVec (q : Quaternion) (v : Vector3) : Quaternion :=
  ⟨q.w * v.x + q.y * v.z - q.z * v.y,
   q.w * v.y + q.z * v.x - q.x * v.z,
   q.w * v.z + q.x * v.y - q.y * v.x,
   -q.x * v.x - q.y * v.y - q.z * v.z⟩

/-- tf2 quatRotate: the vector part of q * v * q.inverse(). -/
def quatRotate (q : Quaternion) (v : Vector3) : Vector3 :=
  let r := (q.mulVec v).mul q.inverse
  ⟨r.x, r.y, r.z⟩

/-- tf2 Matrix3x3: a 3x3 matrix of scalars, stored by rows (m_el). -/
@[ext] structure Matrix3x3 where
  m00 : ℝ
  m01 : ℝ
  m02 : ℝ
  m10 : ℝ
  m11 : ℝ
  m12 : ℝ
  m20 : ℝ
  m21 : ℝ
  m22 : ℝ

/-- tf2 Matrix3x3::setRotation: the rotation matrix of a quaternion, with the
2 / length2 normalisation of the tf2 source. -/
noncomputable def Matrix3x3.setRotation (q : Quaternion) : Matrix3x3 :=
  let d := q.length2
  let s := 2 / d
  let xs := q.x * s
  let ys := q.y * s
  let zs := q.z * s
  let wx := q.w * xs
  let wy := q.w * ys
  let wz := q.w * zs
  let xx := q.x * xs
  let xy := q.x * ys
  let xz := q.x * zs
  let yy := q.y * ys
  let yz := q.y * zs
  let zz := q.z * zs
  ⟨1 - (yy + zz), xy - wz, xz + wy,
   xy + wz, 1 - (xx + zz), yz - wx,
   xz - wy, yz + wx, 1 - (xx + yy)⟩

/-- tf2 Matrix3x3 operator*: the row-by-column matrix product. -/
def Matrix3x3.mul (a b : Matrix3x3) : Matrix3x3 :=
  ⟨a.m00 * b.m00 + a.m01 * b.m10 + a.m02 * b.m20,
   a.m00 * b.m01 + a.m01 * b.m11 + a.m02 * b.m21,
   a.m00 * b.m02 + a.m01 * b.m12 + a.m02 * b.m22,
   a.m10 * b.m00 + a.m11 * b.m10 + a.m12 * b.m20,
   a.m10 * b.m01 + a.m11 * b.m11 + a.m12 * b.m21,
   a.m10 * b.m02 + a.m11 * b.m12 + a.m12 * b.m22,
   a.m20 * b.m00 + a.m21 * b.m10 + a.m22 * b.m20,
   a.m20 * b.m01 + a.m21 * b.m11 + a.m22 * b.m21,
   a.m20 * b.m02 + a.m21 * b.m12 + a.m22 * b.m22⟩

/-- tf2 Matrix3x3::transpose. -/
def Matrix3x3.transpose (m : Matrix3x3) : Matrix3x3 :=
  ⟨m.m00, m.m10, m.m20, m.m01, m.m11, m.m21, m.m02, m.m12, m.m22⟩

/-- tf2 Matrix3x3::transposeTimes: the product of this matrix transposed with
another, computed directly by column dot products in the tf2 source. -/
def Matrix3x3.transposeTimes (a b : Matrix3x3) : Matrix3x3 :=
  ⟨a.m00 * b.m00 + a.m10 * b.m10 + a.m20 * b.m20,
   a.m00 * b.m01 + a.m10 * b.m11 + a.m20 * b.m21,
   a.m00 * b.m02 + a.m10 * b.m12 + a.m20 * b.m22,
   a.m01 * b.m00 + a.m11 * b.m10 + a.m21 * b.m20,
   a.m01 * b.m01 + a.m11 * b.m11 + a.m21 * b.m21,
   a.m01 * b.m02 + a.m11 * b.m12 + a.m21 * b.m22,
   a.m02 * b.m00 + a.m12 * b.m10 + a.m22 * b.m20,
   a.m02 * b.m01 + a.m12 * b.m11 + a.m22 * b.m21,
   a.m02 * b.m02 + a.m12 * b.m12 + a.m22 * b.m22⟩

/-- tf2 operator*(Matrix3x3, Vector3): rows dotted with the vector. -/
def Matrix3x3.timesVec (m : Matrix3x3) (v : Vector3) : Vector3 :=
  ⟨m.m00 * v.x + m.m01 * v.y + m.m02 * v.z,
   m.m10 * v.x + m.m11 * v.y + m.m12 * v.z,
   m.m20 * v.x + m.m21 * v.y + m.m22 * v.z⟩

/-- tf2 operator*(Vector3, Matrix3x3): columns dotted with the vector (tdotx,
tdoty, tdotz), that is the transpose applied to the vector. -/
def vecTimesMat (v : Vector3) (m : Matrix3x3) : Vector3 :=
  ⟨m.m00 * v.x + m.m10 * v.y + m.m20 * v.z,
   m.m01 * v.x + m.m11 * v.y + m.m21 * v.z,
   m.m02 * v.x + m.m12 * v.y + m.m22 * v.z⟩

/-- tf2 Matrix3x3::getRotation: matrix to quaternion conversion, with the
trace test and the largest-diagonal-element case split of the tf2 source. -/
noncomputable def Matrix3x3.getRotation (m : Matrix3x3) : Quaternion :=
  let trace := m.m00 + m.m11 + m.m22
  if 0 < trace then
    let s := Real.sqrt (trace + 1)
    let s2 := 0.5 / s
    ⟨(m.m21 - m.m12) * s2, (m.m02 - m.m20) * s2, (m.m10 - m.m01) * s2, s * 0.5⟩
  else
    if m.m00 < m.m11 then
      if m.m11 < m.m22 then
        let s := Real.sqrt (m.m22 - m.m00 - m.m11 + 1)
        let s2 := 0.5 / s
        ⟨(m.m02 + m.m20) * s2, (m.m12 + m.m21) * s2, s * 0.5, (m.m10 - m.m01) * s2⟩
      else
        let s := Real.sqrt (m.m11 - m.m22 - m.m00 + 1)
        let s2 := 0.5 / s
        ⟨(m.m01 + m.m10) * s2, s * 0.5, (m.m21 + m.m12) * s2, (m.m02 - m.m20) * s2⟩
    else
      if m.m00 < m.m22 then
        let s := Real.sqrt (m.m22 - m.m00 - m.m11 + 1)
        let s2 := 0.5 / s
        ⟨(m.m02 + m.m20) * s2, (m.m12 + m.m21) * s2, s * 0.5, (m.m10 - m.m01) * s2⟩
      else
        let s := Real.sqrt (m.m00 - m.m11 - m.m22 + 1)
        let s2 := 0.5 / s
        ⟨s * 0.5, (m.m10 + m.m01) * s2, (m.m20 + m.m02) * s2, (m.m21 - m.m12) * s2⟩

/-- Model of tf2Atan2 (the C atan2 on finite doubles): the angle of the point
(x, y), in (-pi, pi]. -/
noncomputable def atan2 (y x : ℝ) : ℝ :=
  if 0 < x then Real.arctan (y / x)
  else if x < 0 then
    if 0 ≤ y then Real.arctan (y / x) + Real.pi else Real.arctan (y / x) - Real.pi
  else
    if 0 < y then Real.pi / 2 else if y < 0 then -(Real.pi / 2) else 0

/-- tf2 Matrix3x3::getEulerYPR with solution_number 1: (yaw, pitch, roll) of
the matrix, with the gimbal-lock guard of the tf2 source on the magnitude of
the (2,0) entry. -/
noncomputable def Matrix3x3.getEulerYPR (m : Matrix3x3) : ℝ × ℝ × ℝ :=
  if 1 ≤ |m.m20| then
    if m.m20 < 0 then
      let delta := atan2 m.m01 m.m02
      (0, Real.pi / 2, Real.pi / 2 + delta)
    else
      let delta := atan2 (-m.m01) (-m.m02)
      (0, -(Real.pi / 2), Real.pi / 2 + delta)
  else
    let pitch := -Real.arcsin m.m20
    let roll := atan2 (m.m21 / Real.cos pitch) (m.m22 / Real.cos pitch)
    let yaw := atan2 (m.m10 / Real.cos pitch) (m.m00 / Real.cos pitch)
    (yaw, pitch, roll)

/-- tf2 Matrix3x3::getRPY (solution 1): the roll, pitch, yaw of the matrix as
a vector, read off getEulerYPR. -/
noncomputable def Matrix3x3.getRPY (m : Matrix3x3) : Vector3 :=
  let e := m.getEulerYPR
  ⟨e.2.2, e.2.1, e.1⟩

/-- tf2 Transform: rotation stored as a Matrix3x3 basis plus an origin. -/
@[ext] structure Transform where
  basis : Matrix3x3
  origin : Vector3

/-- tf2 Transform operator*: composition (rotate-then-translate the origin of
the second transform, compose the bases). -/
def Transform.mult (a b : Transform) : Transform :=
  ⟨a.basis.mul b.basis, (a.basis.timesVec b.origin).add a.origin⟩

/-- tf2 Transform::inverse. -/
def Transform.inverse (t : Transform) : Transform :=
  let inv := t.basis.transpose
  ⟨inv, inv.timesVec t.origin.neg⟩

/-- tf2 Transform::inverseTimes: the relative transform this.inverse() * t,
computed directly as in the tf2 source. -/
def Transform.inverseTimes (t u : Transform) : Transform :=
  let v := u.origin.sub t.origin
  ⟨t.basis.transposeTimes u.basis, vecTimesMat v t.basis⟩

/-- tf2 Transform::getRotation: the quaternion of the basis. -/
noncomputable def Transform.getRotation (t : Transform) : Quaternion :=
  t.basis.getRotation

end Tf2

namespace FiducialOdom

open Tf2

/-- geometry_msgs Pose: position plus orientation quaternion. -/
@[ext] structure Pose where
  position : Vector3
  orientation : Quaternion

/-- geometry_msgs PoseStamped, with the header reduced to the timestamp in
seconds (header.stamp.toSec()); frame names carry no behaviour here. -/
@[ext] structure PoseStamped where
  stamp : ℝ
  pose : Pose

/-- geometry_msgs Transform: a translation and a rotation quaternion, as
returned by lookupTransform and as broadcast at lines 118 to 126. -/
@[ext] structure TransformMsg where
  translation : Vector3
  rotation : Quaternion

/-- tf2 fromMsg / tf2::convert of a pose message into a tf2 Transform: the
basis is the rotation matrix of the orientation, the origin the position. -/
noncomputable def poseToTransform (p : Pose) : Transform :=
  ⟨Matrix3x3.setRotation p.orientation, p.position⟩

/-- tf2_geometry_msgs doTransform on a pose: compose the rigid transform of
the message with the rigid transform of the pose, then read the result back
as a pose (origin, plus getRotation of the composed basis). -/
noncomputable def doTransformPose (tr : TransformMsg) (p : Pose) : Pose :=
  let t : Transform := ⟨Matrix3x3.setRotation tr.rotation, tr.translation⟩
  let v : Transform := ⟨Matrix3x3.setRotation p.orientation, p.position⟩
  let vout := t.mult v
  ⟨vout.origin, vout.getRotation⟩

/-- Lines 109 to 115: apply the looked-up transform to the marker pose, stamp
the result with the current time, and multiply the X position by -1. -/
noncomputable def reproject (tr : TransformMsg) (markerPose : Pose) (now : ℝ) :
    PoseStamped :=
  let transformed := doTransformPose tr markerPose
  ⟨now,
   ⟨⟨transformed.position.x * (-1), transformed.position.y, transformed.position.z⟩,
    transformed.orientation⟩⟩

/-- The condition of lines 144 to 147: every component of the stored
orientation compares equal to zero. -/
def zeroOrientation (q : Quaternion) : Prop :=
  q.x = 0 ∧ q.y = 0 ∧ q.z = 0 ∧ q.w = 0

/-- Lines 143 to 148: when the stored orientation is the all-zero quaternion,
set its w component to 1 (the other fields are left as they are). -/
noncomputable def fixupLastPose (p : PoseStamped) : PoseStamped :=
  if zeroOrientation p.pose.orientation then
    ⟨p.stamp,
     ⟨p.pose.position,
      ⟨p.pose.orientation.x, p.pose.orientation.y, p.pose.orientation.z, 1⟩⟩⟩
  else p

/-- Twist: the linear and angular velocity of the emitted odometry. -/
@[ext] structure Twist where
  linear : Vector3
  angular : Vector3

/-- Lines 152 to 175: convert both poses to tf2 transforms, take the fast
difference inverseTimes, read its origin and its rotation quaternion, convert
the quaternion back to a matrix and decompose it into roll, pitch, yaw, then
divide both deltas by the elapsed time between the two stamps. -/
noncomputable def estimateVelocity (prev cur : PoseStamped) : Twist :=
  let t_0 := poseToTransform prev.pose
  let t_1 := poseToTransform cur.pose
  let deltas := t_0.inverseTimes t_1
  let linear_deltas := deltas.origin
  let angular_deltas := deltas.getRotation
  let converter := Matrix3x3.setRotation angular_deltas
  let rpy_deltas := converter.getRPY
  let delta_t := cur.stamp - prev.stamp
  ⟨linear_deltas.divScalar delta_t, rpy_deltas.divScalar delta_t⟩

/-- The covariance literal of lines 135 to 140 and 177 to 182: a 6 by 6
row-major array with 5e-3 at each diagonal entry and 0 elsewhere. -/
def odomCovariance : Matrix (Fin 6) (Fin 6) ℝ :=
  !![5e-3, 0, 0, 0, 0, 0;
     0, 5e-3, 0, 0, 0, 0;
     0, 0, 5e-3, 0, 0, 0;
     0, 0, 0, 5e-3, 0, 0;
     0, 0, 0, 0, 5e-3, 0;
     0, 0, 0, 0, 0, 5e-3]

/-- nav_msgs Odometry as filled at lines 129 to 182: stamp, pose, pose
covariance, twist and twist covariance (frame names carry no behaviour). -/
structure Odometry where
  stamp : ℝ
  pose : Pose
  pose_covariance : Matrix (Fin 6) (Fin 6) ℝ
  twist : Twist
  twist_covariance : Matrix (Fin 6) (Fin 6) ℝ

/-- The external inputs of one call of process_odometry: whether the action
client reported a result, the detection count and marker pose of that result,
the outcome of the transform lookup (none models the tf2::TransformException
branch), and the wall clock now in seconds. -/
structure CycleInput where
  actionSucceeded : Bool
  number_found : ℕ
  markerPose : Pose
  lookup : Option TransformMsg
  now : ℝ

/-- The observable outcome of one call of process_odometry: the final value of
the member last_pose, the successive values assigned to that member during the
call (line 148 and line 186), whether lookupTransform was invoked, how many
warnings were logged, the backoff sleep if any, the broadcast transform if
any, and the published odometry record if any. -/
structure CycleResult where
  last_pose : PoseStamped
  lastPoseWrites : List PoseStamped
  lookedUp : Bool
  warnings : ℕ
  sleptFor : Option ℝ
  broadcasted : Option TransformMsg
  published : Option Odometry

/-- FiducialOdom::process_odometry (lines 75 to 192), as a function of the
stored last_pose and the cycle's inputs. The branches: action failure warns
and returns; a zero detection count returns before any lookup; a failed
lookup warns, sleeps one second and returns; otherwise the marker pose is
reprojected, broadcast, packaged with covariances, the stored pose is fixed up
in place when its orientation is all zero, the twist is estimated against it,
the odometry is published and last_pose is replaced by the reprojected pose. -/
noncomputable def process_odometry (last_pose : PoseStamped) (input : CycleInput) :
    CycleResult :=
  if input.actionSucceeded then
    if input.number_found = 0 then
      ⟨last_pose, [], false, 0, none, none, none⟩
    else
      match input.lookup with
      | none => ⟨last_pose, [], true, 1, some 1, none, none⟩
      | some transform_stamped =>
        let relative_pose := reproject transform_stamped input.markerPose input.now
        let transform : TransformMsg :=
          ⟨relative_pose.pose.position, relative_pose.pose.orientation⟩
        let fixed := fixupLastPose last_pose
        let odom : Odometry :=
          ⟨input.now, relative_pose.pose, odomCovariance,
           estimateVelocity fixed relative_pose, odomCovariance⟩
        ⟨relative_pose,
         (if zeroOrientation last_pose.pose.orientation then [fixed] else [])
           ++ [relative_pose],
         true, 0, none, some transform, some odom⟩
  else
    ⟨last_pose, [], false, 1, none, none, none⟩

/-- The default-constructed last_pose member (line 55): zero stamp, zero
position, all-zero orientation. -/
def initial_last_pose : PoseStamped := ⟨0, ⟨⟨0, 0, 0⟩, ⟨0, 0, 0, 0⟩⟩⟩

/-- The identity pose at the origin (spec language for the sentinel after
fix-up). -/
def identityPose : Pose := ⟨⟨0, 0, 0⟩, ⟨0, 0, 0, 1⟩⟩

/-- The decomposition route the code takes from a relative rotation matrix to
the roll, pitch, yaw vector: matrix to quaternion (line 163), quaternion back
to matrix (line 167), then getRPY (line 169). -/
noncomputable def decomposeRPY (m : Matrix3x3) : Vector3 :=
  (Matrix3x3.setRotation m.getRotation).getRPY

/-- A constant orientation offset R applied to the world embedding of a
stamped pose: the orientation is composed on the left with R, the position is
rotated by R, the stamp is unchanged. -/
def rotatePoseStamped (R : Quaternion) (p : PoseStamped) : PoseStamped :=
  ⟨p.stamp, ⟨quatRotate R p.pose.position, R.mul p.pose.orientation⟩⟩

end FiducialOdom

namespace Tf2

/-- The squared norm is multiplicative (the Euler four-square identity). -/
theorem length2_mul (p q : Quaternion) :
    (p.mul q).length2 = p.length2 * q.length2 := by
  simp only [Quaternion.mul, Quaternion.length2]
  ring

/-- Conjugation preserves the squared norm. -/
theorem length2_inverse (q : Quaternion) : q.inverse.length2 = q.length2 := by
  simp only [Quaternion.inverse, Quaternion.length2]
  ring

/-- The rotation matrix of the conjugate is the transpose. -/
theorem setRotation_inverse (q : Quaternion) :
    Matrix3x3.setRotation q.inverse = (Matrix3x3.setRotation q).transpose := by
  ext <;>
    simp only [Matrix3x3.setRotation, Matrix3x3.transpose, Quaternion.inverse,
      Quaternion.length2] <;>
    ring

/-- transposeTimes computes the product of the transpose with the argument. -/
theorem transposeTimes_eq (a b : Matrix3x3) :
    a.transposeTimes b = a.transpose.mul b := by
  ext <;>
    simp only [Matrix3x3.transposeTimes, Matrix3x3.transpose, Matrix3x3.mul]

/-- The vector-times-matrix product is the transpose applied to the vector. -/
theorem vecTimesMat_eq (v : Vector3) (m : Matrix3x3) :
    vecTimesMat v m = m.transpose.timesVec v := by
  ext <;>
    simp only [vecTimesMat, Matrix3x3.transpose, Matrix3x3.timesVec]

/-- Matrix application distributes over the matrix product. -/
theorem timesVec_mul (a b : Matrix3x3) (v : Vector3) :
    (a.mul b).timesVec v = a.timesVec (b.timesVec v) := by
  ext <;> simp only [Matrix3x3.mul, Matrix3x3.timesVec] <;> ring

/-- quatRotate is additive in the rotated vector differences. -/
theorem quatRotate_sub (q : Quaternion) (a b : Vector3) :
    (quatRotate q a).sub (quatRotate q b) = quatRotate q (a.sub b) := by
  ext <;>
    simp only [quatRotate, Quaternion.mulVec, Quaternion.mul, Quaternion.inverse,
      Vector3.sub] <;>
    ring

/-- The conjugate reverses the Hamilton product. -/
theorem quat_inverse_mul (p q : Quaternion) :
    (p.mul q).inverse = q.inverse.mul p.inverse := by
  ext <;> simp only [Quaternion.mul, Quaternion.inverse] <;> ring

/-- Cancellation of a common left factor against its conjugate, up to the
squared norm of the factor as a scalar quaternion. -/
theorem inverse_mul_cancel_left (R a b : Quaternion) :
    ((R.mul a).inverse).mul (R.mul b)
      = (⟨0, 0, 0, R.length2⟩ : Quaternion).mul (a.inverse.mul b) := by
  ext <;>
    simp only [Quaternion.mul, Quaternion.inverse, Quaternion.length2] <;>
    ring

/-- Cancellation of the left factor alone against its conjugate. -/
theorem inverse_mul_cancel_right (R a : Quaternion) :
    ((R.mul a).inverse).mul R
      = (⟨0, 0, 0, R.length2⟩ : Quaternion).mul a.inverse := by
  ext <;>
    simp only [Quaternion.mul, Quaternion.inverse, Quaternion.length2] <;>
    ring

/-- The scalar quaternion 1 is a left unit. -/
theorem one_scalar_mul (q : Quaternion) :
    (⟨0, 0, 0, 1⟩ : Quaternion).mul q = q := by
  ext <;> simp only [Quaternion.mul] <;> ring

/-- Division of a vector by 1 is the vector. -/
theorem divScalar_one (v : Vector3) : v.divScalar 1 = v := by
  ext <;> simp [Vector3.divScalar]

set_option maxHeartbeats 4000000 in
/-- The rotation matrix of a product of quaternions of nonzero norm is the
product of the rotation matrices. -/
theorem setRotation_mul (p q : Quaternion) (hp : p.length2 ≠ 0)
    (hq : q.length2 ≠ 0) :
    Matrix3x3.setRotation (p.mul q)
      = (Matrix3x3.setRotation p).mul (Matrix3x3.setRotation q) := by
  ext <;>
    (simp only [Matrix3x3.setRotation, Matrix3x3.mul]
     rw [length2_mul]
     simp only [Quaternion.mul, Quaternion.length2] at hp hq ⊢
     field_simp
     ring)

set_option maxHeartbeats 1000000 in
/-- Applying the rotation matrix of a quaternion of nonzero norm is quatRotate
divided by the squared norm. -/
theorem timesVec_setRotation (q : Quaternion) (v : Vector3)
    (hq : q.length2 ≠ 0) :
    (Matrix3x3.setRotation q).timesVec v = (quatRotate q v).divScalar q.length2 := by
  ext <;>
    (simp only [Matrix3x3.setRotation, Matrix3x3.timesVec, quatRotate,
       Quaternion.mulVec, Quaternion.mul, Quaternion.inverse, Vector3.divScalar,
       Quaternion.length2]
     simp only [Quaternion.length2] at hq
     field_simp
     ring)

end Tf2

namespace Tf2

/-- inverseTimes agrees with composing the inverse with the second transform
(the formula inverse(previous) * current of the specification). -/
theorem inverseTimes_eq_inverse_mult (t u : Transform) :
    t.inverseTimes u = t.inverse.mult u := by
  ext <;>
    simp only [Transform.inverseTimes, Transform.inverse, Transform.mult,
      Matrix3x3.transposeTimes, Matrix3x3.transpose, Matrix3x3.mul,
      Matrix3x3.timesVec, vecTimesMat, Vector3.sub, Vector3.neg, Vector3.add] <;>
    ring

/-- The rotation matrix of the identity quaternion is the identity matrix. -/
theorem setRotation_identity :
    Matrix3x3.setRotation ⟨0, 0, 0, 1⟩ = ⟨1, 0, 0, 0, 1, 0, 0, 0, 1⟩ := by
  ext <;> norm_num [Matrix3x3.setRotation, Quaternion.length2]

/-- inverseTimes from the identity transform returns its argument. -/
theorem inverseTimes_identity (t : Transform) :
    Transform.inverseTimes ⟨⟨1, 0, 0, 0, 1, 0, 0, 0, 1⟩, ⟨0, 0, 0⟩⟩ t = t := by
  ext <;>
    simp only [Transform.inverseTimes, Matrix3x3.transposeTimes, vecTimesMat,
      Vector3.sub] <;>
    ring

/-- The relative transform inverseTimes of two embedded poses is unchanged
when a common unit-quaternion rotation is applied on the left of both. -/
theorem inverseTimes_rotation_invariant (R qA qB : Quaternion) (pA pB : Vector3)
    (hR : R.length2 = 1) (hA : qA.length2 = 1) (hB : qB.length2 = 1) :
    Transform.inverseTimes
        ⟨Matrix3x3.setRotation (R.mul qA), quatRotate R pA⟩
        ⟨Matrix3x3.setRotation (R.mul qB), quatRotate R pB⟩
      = Transform.inverseTimes ⟨Matrix3x3.setRotation qA, pA⟩
          ⟨Matrix3x3.setRotation qB, pB⟩ := by
  have hR0 : R.length2 ≠ 0 := by rw [hR]; norm_num
  have hA0 : qA.length2 ≠ 0 := by rw [hA]; norm_num
  have hB0 : qB.length2 ≠ 0 := by rw [hB]; norm_num
  have hRA0 : (R.mul qA).length2 ≠ 0 := by rw [length2_mul, hR, hA]; norm_num
  have hRB0 : (R.mul qB).length2 ≠ 0 := by rw [length2_mul, hR, hB]; norm_num
  have hRAi0 : ((R.mul qA).inverse).length2 ≠ 0 := by
    rw [length2_inverse]; exact hRA0
  have hAi0 : qA.inverse.length2 ≠ 0 := by rw [length2_inverse]; exact hA0
  have hbasis :
      Matrix3x3.transposeTimes (Matrix3x3.setRotation (R.mul qA))
          (Matrix3x3.setRotation (R.mul qB))
        = Matrix3x3.transposeTimes (Matrix3x3.setRotation qA)
            (Matrix3x3.setRotation qB) := by
    rw [transposeTimes_eq, transposeTimes_eq, ← setRotation_inverse,
      ← setRotation_inverse, ← setRotation_mul _ _ hRAi0 hRB0,
      inverse_mul_cancel_left, hR, one_scalar_mul,
      setRotation_mul _ _ hAi0 hB0]
  have horigin :
      vecTimesMat ((quatRotate R pB).sub (quatRotate R pA))
          (Matrix3x3.setRotation (R.mul qA))
        = vecTimesMat (pB.sub pA) (Matrix3x3.setRotation qA) := by
    have hrot : quatRotate R (pB.sub pA)
        = (Matrix3x3.setRotation R).timesVec (pB.sub pA) := by
      rw [timesVec_setRotation _ _ hR0, hR, divScalar_one]
    rw [vecTimesMat_eq, vecTimesMat_eq, ← setRotation_inverse,
      ← setRotation_inverse, quatRotate_sub, hrot, ← timesVec_mul,
      ← setRotation_mul _ _ hRAi0 hR0, inverse_mul_cancel_right, hR,
      one_scalar_mul]
  simp only [Transform.inverseTimes]
  rw [hbasis, horigin]

end Tf2

namespace FiducialOdom

open Tf2

/-- C3: the velocity estimate of lines 152 to 175 is computed from the
body-frame relative transform relative = inverse(previous) * current: the
linear velocity is the relative translation divided by the elapsed time, and
the angular velocity is the roll-pitch-yaw decomposition of the relative
rotation divided by the elapsed time. -/
theorem velocity_is_body_frame_difference (prev cur : PoseStamped) :
    estimateVelocity prev cur
      = ⟨(((poseToTransform prev.pose).inverse).mult
            (poseToTransform cur.pose)).origin.divScalar (cur.stamp - prev.stamp),
         (decomposeRPY (((poseToTransform prev.pose).inverse).mult
            (poseToTransform cur.pose)).basis).divScalar (cur.stamp - prev.stamp)⟩ := by
  simp only [estimateVelocity, decomposeRPY, Transform.getRotation,
    ← inverseTimes_eq_inverse_mult]

/-- C9: the velocity estimate is invariant under a constant unit-quaternion
orientation offset applied to the world embedding of both poses. -/
theorem velocity_invariant_under_orientation_offset (R : Quaternion)
    (A B : PoseStamped) (hR : R.length2 = 1)
    (hA : A.pose.orientation.length2 = 1) (hB : B.pose.orientation.length2 = 1) :
    estimateVelocity (rotatePoseStamped R A) (rotatePoseStamped R B)
      = estimateVelocity A B := by
  have h := inverseTimes_rotation_invariant R A.pose.orientation
    B.pose.orientation A.pose.position B.pose.position hR hA hB
  simp only [estimateVelocity, rotatePoseStamped, poseToTransform]
  rw [h]

/-- Witness for C9 at the unit quaternion (3/5, 0, 0, 4/5) and two concrete
poses with identity orientation. -/
theorem velocity_invariant_under_orientation_offset_witness :
    estimateVelocity
        (rotatePoseStamped ⟨3 / 5, 0, 0, 4 / 5⟩ ⟨0, ⟨⟨1, 2, 3⟩, ⟨0, 0, 0, 1⟩⟩⟩)
        (rotatePoseStamped ⟨3 / 5, 0, 0, 4 / 5⟩ ⟨1, ⟨⟨4, 5, 6⟩, ⟨0, 0, 0, 1⟩⟩⟩)
      = estimateVelocity ⟨0, ⟨⟨1, 2, 3⟩, ⟨0, 0, 0, 1⟩⟩⟩
          ⟨1, ⟨⟨4, 5, 6⟩, ⟨0, 0, 0, 1⟩⟩⟩ :=
  velocity_invariant_under_orientation_offset _ _ _
    (by norm_num [Quaternion.length2]) (by norm_num [Quaternion.length2])
    (by norm_num [Quaternion.length2])

/-- C5: reading the previous pose through the all-zero fix-up of lines 143 to
148 yields the identity orientation and zero position on the freshly
initialised sentinel, and never yields the all-zero quaternion on any stored
pose. -/
theorem pose_history_identity_invariant :
    (fixupLastPose initial_last_pose).pose.orientation = ⟨0, 0, 0, 1⟩
      ∧ (fixupLastPose initial_last_pose).pose.position = ⟨0, 0, 0⟩
      ∧ ∀ p : PoseStamped,
          (fixupLastPose p).pose.orientation ≠ (⟨0, 0, 0, 0⟩ : Quaternion) := by
  refine ⟨?_, ?_, ?_⟩
  · simp [fixupLastPose, initial_last_pose, zeroOrientation]
  · simp [fixupLastPose, initial_last_pose, zeroOrientation]
  · intro p
    by_cases h : zeroOrientation p.pose.orientation
    · simp [fixupLastPose, h, Quaternion.ext_iff]
    · simp only [fixupLastPose, h, if_neg, not_false_iff]
      intro hq
      exact h (by simp [zeroOrientation, hq])

/-- C7: a cycle whose detection result has a zero count emits nothing,
broadcasts nothing, performs no transform lookup, logs no warning, sleeps not
at all, writes nothing to the stored pose and leaves it unchanged. -/
theorem zero_detections_skips_cycle (s : PoseStamped) (i : CycleInput)
    (h1 : i.actionSucceeded = true) (h2 : i.number_found = 0) :
    process_odometry s i = ⟨s, [], false, 0, none, none, none⟩ := by
  simp [process_odometry, h1, h2]

/-- Witness for C7 on a concrete sentinel state and zero-count input. -/
theorem zero_detections_skips_cycle_witness :
    process_odometry ⟨0, ⟨⟨0, 0, 0⟩, ⟨0, 0, 0, 0⟩⟩⟩
        ⟨true, 0, ⟨⟨0, 0, 0⟩, ⟨0, 0, 0, 1⟩⟩, none, 1⟩
      = ⟨⟨0, ⟨⟨0, 0, 0⟩, ⟨0, 0, 0, 0⟩⟩⟩, [], false, 0, none, none, none⟩ :=
  zero_detections_skips_cycle _ _ rfl rfl

/-- C8: a cycle with at least one marker whose transform lookup fails logs
exactly one warning, sleeps the fixed one-second backoff, emits nothing,
writes nothing to the stored pose and leaves it unchanged. -/
theorem transform_failure_warns_and_skips (s : PoseStamped) (i : CycleInput)
    (h1 : i.actionSucceeded = true) (h2 : i.number_found ≠ 0)
    (h3 : i.lookup = none) :
    process_odometry s i = ⟨s, [], true, 1, some 1, none, none⟩ := by
  simp [process_odometry, h1, h2, h3]

/-- Witness for C8 on a concrete state and a failing lookup. -/
theorem transform_failure_warns_and_skips_witness :
    process_odometry ⟨0, ⟨⟨0, 0, 0⟩, ⟨0, 0, 0, 0⟩⟩⟩
        ⟨true, 1, ⟨⟨0, 0, 0⟩, ⟨0, 0, 0, 1⟩⟩, none, 1⟩
      = ⟨⟨0, ⟨⟨0, 0, 0⟩, ⟨0, 0, 0, 0⟩⟩⟩, [], true, 1, some 1, none, none⟩ :=
  transform_failure_warns_and_skips _ _ rfl (by decide) rfl

end FiducialOdom

namespace FiducialOdom

open Tf2

/-- C6: every published odometry record carries the fixed covariance literal
of lines 135 to 140 and 177 to 182 for both pose and twist; that literal is
diagonal with value 5e-3 at each of its six diagonal entries and 0 elsewhere,
independent of the inputs. -/
theorem covariances_fixed_diagonal :
    (∀ (s : PoseStamped) (i : CycleInput) (o : Odometry),
        (process_odometry s i).published = some o
          → o.pose_covariance = odomCovariance
            ∧ o.twist_covariance = odomCovariance)
      ∧ (∀ k l : Fin 6, odomCovariance k l = if k = l then 5e-3 else 0)
      ∧ (5e-3 : ℝ) ≠ 0 := by
  refine ⟨?_, ?_, by norm_num⟩
  · intro s i o ho
    by_cases h1 : i.actionSucceeded = true
    · by_cases h2 : i.number_found = 0
      · simp [process_odometry, h1, h2] at ho
      · cases hl : i.lookup with
        | none => simp [process_odometry, h1, h2, hl] at ho
        | some ts =>
          simp only [process_odometry, h1, h2, hl, if_true, if_false,
            ite_false, ite_true, Option.some.injEq] at ho
          subst ho
          exact ⟨rfl, rfl⟩
    · simp [process_odometry, h1] at ho
  · intro k l
    fin_cases k <;> fin_cases l <;> rfl

/-- C2: on every successful cycle, the published pose is the looked-up
transform applied to the marker pose with exactly the X position component
negated; the Y and Z components and the orientation are the pure
transform-applied values, and the negation is applied unconditionally. -/
theorem reprojection_negates_exactly_x (s : PoseStamped) (i : CycleInput)
    (ts : TransformMsg) (h1 : i.actionSucceeded = true)
    (h2 : i.number_found ≠ 0) (h3 : i.lookup = some ts) :
    ∃ o : Odometry, (process_odometry s i).published = some o
      ∧ o.pose.position.x = -(doTransformPose ts i.markerPose).position.x
      ∧ o.pose.position.y = (doTransformPose ts i.markerPose).position.y
      ∧ o.pose.position.z = (doTransformPose ts i.markerPose).position.z
      ∧ o.pose.orientation = (doTransformPose ts i.markerPose).orientation := by
  refine ⟨⟨i.now, (reproject ts i.markerPose i.now).pose, odomCovariance,
      estimateVelocity (fixupLastPose s) (reproject ts i.markerPose i.now),
      odomCovariance⟩, ?_, ?_, ?_, ?_, ?_⟩
  · simp [process_odometry, h1, h2, h3]
  all_goals simp [reproject, mul_neg_one]

/-- Witness for C2 on a concrete successful cycle. -/
theorem reprojection_negates_exactly_x_witness :
    ∃ o : Odometry,
      (process_odometry ⟨0, ⟨⟨0, 0, 0⟩, ⟨0, 0, 0, 0⟩⟩⟩
          ⟨true, 1, ⟨⟨1, 2, 3⟩, ⟨0, 0, 0, 1⟩⟩,
           some ⟨⟨4, 5, 6⟩, ⟨0, 0, 0, 1⟩⟩, 7⟩).published = some o
        ∧ o.pose.position.x
            = -(doTransformPose ⟨⟨4, 5, 6⟩, ⟨0, 0, 0, 1⟩⟩ ⟨⟨1, 2, 3⟩, ⟨0, 0, 0, 1⟩⟩).position.x
        ∧ o.pose.position.y
            = (doTransformPose ⟨⟨4, 5, 6⟩, ⟨0, 0, 0, 1⟩⟩ ⟨⟨1, 2, 3⟩, ⟨0, 0, 0, 1⟩⟩).position.y
        ∧ o.pose.position.z
            = (doTransformPose ⟨⟨4, 5, 6⟩, ⟨0, 0, 0, 1⟩⟩ ⟨⟨1, 2, 3⟩, ⟨0, 0, 0, 1⟩⟩).position.z
        ∧ o.pose.orientation
            = (doTransformPose ⟨⟨4, 5, 6⟩, ⟨0, 0, 0, 1⟩⟩ ⟨⟨1, 2, 3⟩, ⟨0, 0, 0, 1⟩⟩).orientation :=
  reprojection_negates_exactly_x _ _ _ rfl (by decide) rfl

/-- C1 amended: the code has no degenerate-interval guard: whenever the
detection and lookup gates pass, the cycle publishes an odometry record and
replaces the stored pose, regardless of how the current stamp compares with
the stored stamp; the twist is computed by dividing by the (possibly zero or
negative) elapsed time, with division by zero denoting the model of the
undefined C++ quotient. -/
theorem no_degenerate_interval_guard (s : PoseStamped) (i : CycleInput)
    (ts : TransformMsg) (h1 : i.actionSucceeded = true)
    (h2 : i.number_found ≠ 0) (h3 : i.lookup = some ts) :
    (process_odometry s i).published
        = some ⟨i.now, (reproject ts i.markerPose i.now).pose, odomCovariance,
            estimateVelocity (fixupLastPose s) (reproject ts i.markerPose i.now),
            odomCovariance⟩
      ∧ (process_odometry s i).last_pose = reproject ts i.markerPose i.now := by
  constructor <;> simp [process_odometry, h1, h2, h3]

/-- Witness for the amended C1 on a cycle whose current stamp equals the
stored stamp (zero elapsed time). -/
theorem no_degenerate_interval_guard_witness :
    (process_odometry ⟨5, ⟨⟨0, 0, 0⟩, ⟨0, 0, 0, 1⟩⟩⟩
        ⟨true, 1, ⟨⟨1, 0, 0⟩, ⟨0, 0, 0, 1⟩⟩, some ⟨⟨0, 0, 0⟩, ⟨0, 0, 0, 1⟩⟩, 5⟩).published
        = some ⟨5, (reproject ⟨⟨0, 0, 0⟩, ⟨0, 0, 0, 1⟩⟩ ⟨⟨1, 0, 0⟩, ⟨0, 0, 0, 1⟩⟩ 5).pose,
            odomCovariance,
            estimateVelocity (fixupLastPose ⟨5, ⟨⟨0, 0, 0⟩, ⟨0, 0, 0, 1⟩⟩⟩)
              (reproject ⟨⟨0, 0, 0⟩, ⟨0, 0, 0, 1⟩⟩ ⟨⟨1, 0, 0⟩, ⟨0, 0, 0, 1⟩⟩ 5),
            odomCovariance⟩
      ∧ (process_odometry ⟨5, ⟨⟨0, 0, 0⟩, ⟨0, 0, 0, 1⟩⟩⟩
          ⟨true, 1, ⟨⟨1, 0, 0⟩, ⟨0, 0, 0, 1⟩⟩, some ⟨⟨0, 0, 0⟩, ⟨0, 0, 0, 1⟩⟩, 5⟩).last_pose
          = reproject ⟨⟨0, 0, 0⟩, ⟨0, 0, 0, 1⟩⟩ ⟨⟨1, 0, 0⟩, ⟨0, 0, 0, 1⟩⟩ 5 :=
  no_degenerate_interval_guard _ _ _ rfl (by decide) rfl

/-- Counterexample to C1 as stated: at equal stamps (so current.timestamp is
not greater than previous.timestamp) the cycle still publishes an estimate
and still advances the stored pose. -/
theorem degenerate_interval_still_emits :
    ((⟨true, 1, ⟨⟨1, 0, 0⟩, ⟨0, 0, 0, 1⟩⟩, some ⟨⟨0, 0, 0⟩, ⟨0, 0, 0, 1⟩⟩, 5⟩ :
        CycleInput).now ≤ (⟨5, ⟨⟨0, 0, 0⟩, ⟨0, 0, 0, 1⟩⟩⟩ : PoseStamped).stamp)
      ∧ ((process_odometry ⟨5, ⟨⟨0, 0, 0⟩, ⟨0, 0, 0, 1⟩⟩⟩
            ⟨true, 1, ⟨⟨1, 0, 0⟩, ⟨0, 0, 0, 1⟩⟩,
             some ⟨⟨0, 0, 0⟩, ⟨0, 0, 0, 1⟩⟩, 5⟩).published).isSome = true
      ∧ (process_odometry ⟨5, ⟨⟨0, 0, 0⟩, ⟨0, 0, 0, 1⟩⟩⟩
            ⟨true, 1, ⟨⟨1, 0, 0⟩, ⟨0, 0, 0, 1⟩⟩,
             some ⟨⟨0, 0, 0⟩, ⟨0, 0, 0, 1⟩⟩, 5⟩).last_pose
          ≠ ⟨5, ⟨⟨0, 0, 0⟩, ⟨0, 0, 0, 1⟩⟩⟩ := by
  refine ⟨le_refl _, by simp [process_odometry], ?_⟩
  intro hEq
  have hx := congrArg (fun p : PoseStamped => p.pose.position.x) hEq
  simp only [process_odometry, reproject, doTransformPose, Transform.mult,
    setRotation_identity, Matrix3x3.timesVec, Vector3.add] at hx
  norm_num at hx

/-- C4 amended: the stored pose member is written only by the wholesale
end-of-cycle replacement with the accepted reprojected sample, except that an
accepted cycle whose stored orientation is exactly all-zero first rewrites
the stored orientation w field to 1 in place (lines 143 to 148); rejected
cycles write nothing, and the fix-up write differs from the stored sample
only in the orientation w component. -/
theorem last_pose_writes_characterisation (s : PoseStamped) (i : CycleInput) :
    ((process_odometry s i).published = none
        → (process_odometry s i).lastPoseWrites = [])
      ∧ (∀ o : Odometry, (process_odometry s i).published = some o
          → (zeroOrientation s.pose.orientation
                → (process_odometry s i).lastPoseWrites
                    = [fixupLastPose s, (process_odometry s i).last_pose])
            ∧ (¬ zeroOrientation s.pose.orientation
                → (process_odometry s i).lastPoseWrites
                    = [(process_odometry s i).last_pose]))
      ∧ (fixupLastPose s).stamp = s.stamp
      ∧ (fixupLastPose s).pose.position = s.pose.position
      ∧ (fixupLastPose s).pose.orientation.x = s.pose.orientation.x
      ∧ (fixupLastPose s).pose.orientation.y = s.pose.orientation.y
      ∧ (fixupLastPose s).pose.orientation.z = s.pose.orientation.z := by
  have hfix : (fixupLastPose s).stamp = s.stamp
      ∧ (fixupLastPose s).pose.position = s.pose.position
      ∧ (fixupLastPose s).pose.orientation.x = s.pose.orientation.x
      ∧ (fixupLastPose s).pose.orientation.y = s.pose.orientation.y
      ∧ (fixupLastPose s).pose.orientation.z = s.pose.orientation.z := by
    by_cases h : zeroOrientation s.pose.orientation
    · simp [fixupLastPose, h]
    · simp [fixupLastPose, h]
  refine ⟨?_, ?_, hfix.1, hfix.2.1, hfix.2.2.1, hfix.2.2.2.1, hfix.2.2.2.2⟩
  · intro hnone
    by_cases h1 : i.actionSucceeded = true
    · by_cases h2 : i.number_found = 0
      · simp [process_odometry, h1, h2]
      · cases hl : i.lookup with
        | none => simp [process_odometry, h1, h2, hl]
        | some ts => simp [process_odometry, h1, h2, hl] at hnone
    · simp [process_odometry, h1]
  · intro o ho
    by_cases h1 : i.actionSucceeded = true
    · by_cases h2 : i.number_found = 0
      · simp [process_odometry, h1, h2] at ho
      · cases hl : i.lookup with
        | none => simp [process_odometry, h1, h2, hl] at ho
        | some ts =>
          constructor
          · intro hz
            simp [process_odometry, h1, h2, hl, hz]
          · intro hnz
            simp [process_odometry, h1, h2, hl, hnz]
    · simp [process_odometry, h1] at ho

/-- Counterexample to C4 as stated: on the first accepted cycle the member is
written twice: the first write is the in-place sentinel fix-up, which differs
from the stored sample only in the orientation w component and is not the
accepted sample that ends up stored. -/
theorem last_pose_mutated_in_place :
    ((process_odometry ⟨0, ⟨⟨0, 0, 0⟩, ⟨0, 0, 0, 0⟩⟩⟩
        ⟨true, 1, ⟨⟨1, 0, 0⟩, ⟨0, 0, 0, 1⟩⟩,
         some ⟨⟨0, 0, 0⟩, ⟨0, 0, 0, 1⟩⟩, 5⟩).published).isSome = true
      ∧ (process_odometry ⟨0, ⟨⟨0, 0, 0⟩, ⟨0, 0, 0, 0⟩⟩⟩
          ⟨true, 1, ⟨⟨1, 0, 0⟩, ⟨0, 0, 0, 1⟩⟩,
           some ⟨⟨0, 0, 0⟩, ⟨0, 0, 0, 1⟩⟩, 5⟩).lastPoseWrites.length = 2
      ∧ (process_odometry ⟨0, ⟨⟨0, 0, 0⟩, ⟨0, 0, 0, 0⟩⟩⟩
          ⟨true, 1, ⟨⟨1, 0, 0⟩, ⟨0, 0, 0, 1⟩⟩,
           some ⟨⟨0, 0, 0⟩, ⟨0, 0, 0, 1⟩⟩, 5⟩).lastPoseWrites.head?
          = some ⟨0, ⟨⟨0, 0, 0⟩, ⟨0, 0, 0, 1⟩⟩⟩
      ∧ (⟨0, ⟨⟨0, 0, 0⟩, ⟨0, 0, 0, 1⟩⟩⟩ : PoseStamped)
          ≠ (process_odometry ⟨0, ⟨⟨0, 0, 0⟩, ⟨0, 0, 0, 0⟩⟩⟩
              ⟨true, 1, ⟨⟨1, 0, 0⟩, ⟨0, 0, 0, 1⟩⟩,
               some ⟨⟨0, 0, 0⟩, ⟨0, 0, 0, 1⟩⟩, 5⟩).last_pose := by
  refine ⟨by simp [process_odometry, zeroOrientation],
    by simp [process_odometry, zeroOrientation],
    by simp [process_odometry, zeroOrientation, fixupLastPose], ?_⟩
  intro hEq
  have hx := congrArg (fun p : PoseStamped => p.pose.position.x) hEq
  simp only [process_odometry, reproject, doTransformPose, Transform.mult,
    setRotation_identity, Matrix3x3.timesVec, Vector3.add] at hx
  norm_num at hx

/-- C10: on the first accepted cycle from the default-constructed sentinel,
the cycle publishes rather than skips: the sentinel orientation is replaced
by the identity, the identity pose at the origin is what the displacement is
taken from (and contributes nothing), and the published twist is the current
reprojected pose's body-frame displacement from the identity pose at the
origin divided by the current timestamp. -/
theorem first_cycle_emits_displacement (s : PoseStamped) (i : CycleInput)
    (ts : TransformMsg) (h1 : i.actionSucceeded = true)
    (h2 : i.number_found ≠ 0) (h3 : i.lookup = some ts)
    (h4 : s.pose.orientation = ⟨0, 0, 0, 0⟩) (h5 : s.stamp = 0)
    (h6 : s.pose.position = ⟨0, 0, 0⟩) :
    (fixupLastPose s).pose = identityPose
      ∧ Transform.inverseTimes (poseToTransform identityPose)
            (poseToTransform (reproject ts i.markerPose i.now).pose)
          = poseToTransform (reproject ts i.markerPose i.now).pose
      ∧ ∃ o : Odometry, (process_odometry s i).published = some o
          ∧ o.twist.linear
              = (Transform.inverseTimes (poseToTransform identityPose)
                  (poseToTransform (reproject ts i.markerPose i.now).pose)).origin.divScalar
                  i.now
          ∧ o.twist.angular
              = (decomposeRPY (Transform.inverseTimes (poseToTransform identityPose)
                  (poseToTransform (reproject ts i.markerPose i.now).pose)).basis).divScalar
                  i.now := by
  have hz : zeroOrientation s.pose.orientation := by simp [zeroOrientation, h4]
  have hfix : fixupLastPose s = ⟨0, identityPose⟩ := by
    simp only [fixupLastPose]
    rw [if_pos hz]
    simp [h4, h5, h6, identityPose]
  have hid : poseToTransform identityPose
      = ⟨(⟨1, 0, 0, 0, 1, 0, 0, 0, 1⟩ : Matrix3x3), ⟨0, 0, 0⟩⟩ := by
    simp [poseToTransform, identityPose, setRotation_identity]
  have hev : estimateVelocity (fixupLastPose s) (reproject ts i.markerPose i.now)
      = ⟨(Transform.inverseTimes (poseToTransform identityPose)
            (poseToTransform (reproject ts i.markerPose i.now).pose)).origin.divScalar
            i.now,
         (decomposeRPY (Transform.inverseTimes (poseToTransform identityPose)
            (poseToTransform (reproject ts i.markerPose i.now).pose)).basis).divScalar
            i.now⟩ := by
    rw [hfix]
    simp only [estimateVelocity, decomposeRPY, Transform.getRotation]
    norm_num [show (reproject ts i.markerPose i.now).stamp = i.now from rfl]
  refine ⟨by rw [hfix], by rw [hid]; exact inverseTimes_identity _,
    ⟨i.now, (reproject ts i.markerPose i.now).pose, odomCovariance,
      estimateVelocity (fixupLastPose s) (reproject ts i.markerPose i.now),
      odomCovariance⟩,
    by simp [process_odometry, h1, h2, h3], by rw [hev], by rw [hev]⟩

set_option maxHeartbeats 2000000 in
/-- Witness for C10 on a concrete first cycle from the sentinel. -/
theorem first_cycle_emits_displacement_witness :
    (fixupLastPose ⟨0, ⟨⟨0, 0, 0⟩, ⟨0, 0, 0, 0⟩⟩⟩).pose = identityPose
      ∧ Transform.inverseTimes (poseToTransform identityPose)
            (poseToTransform
              (reproject ⟨⟨0, 0, 0⟩, ⟨0, 0, 0, 1⟩⟩ ⟨⟨1, 2, 3⟩, ⟨0, 0, 0, 1⟩⟩ 2).pose)
          = poseToTransform
              (reproject ⟨⟨0, 0, 0⟩, ⟨0, 0, 0, 1⟩⟩ ⟨⟨1, 2, 3⟩, ⟨0, 0, 0, 1⟩⟩ 2).pose
      ∧ ∃ o : Odometry,
          (process_odometry ⟨0, ⟨⟨0, 0, 0⟩, ⟨0, 0, 0, 0⟩⟩⟩
              ⟨true, 1, ⟨⟨1, 2, 3⟩, ⟨0, 0, 0, 1⟩⟩,
               some ⟨⟨0, 0, 0⟩, ⟨0, 0, 0, 1⟩⟩, 2⟩).published = some o
            ∧ o.twist.linear
                = (Transform.inverseTimes (poseToTransform identityPose)
                    (poseToTransform
                      (reproject ⟨⟨0, 0, 0⟩, ⟨0, 0, 0, 1⟩⟩
                        ⟨⟨1, 2, 3⟩, ⟨0, 0, 0, 1⟩⟩ 2).pose)).origin.divScalar 2
            ∧ o.twist.angular
                = (decomposeRPY (Transform.inverseTimes (poseToTransform identityPose)
                    (poseToTransform
                      (reproject ⟨⟨0, 0, 0⟩, ⟨0, 0, 0, 1⟩⟩
                        ⟨⟨1, 2, 3⟩, ⟨0, 0, 0, 1⟩⟩ 2).pose)).basis).divScalar 2 :=
  first_cycle_emits_displacement ⟨0, ⟨⟨0, 0, 0⟩, ⟨0, 0, 0, 0⟩⟩⟩
    ⟨true, 1, ⟨⟨1, 2, 3⟩, ⟨0, 0, 0, 1⟩⟩, some ⟨⟨0, 0, 0⟩, ⟨0, 0, 0, 1⟩⟩, 2⟩
    ⟨⟨0, 0, 0⟩, ⟨0, 0, 0, 1⟩⟩ rfl (by decide) rfl rfl rfl rfl

end FiducialOdom
